import Mathlib

/-!
Shallow embedding of the Flask-Mongo user-account core:
`utils/password_utils.py`, `controllers/user_controller.py`,
`config/mongodb.py` and `models/user.py`, together with the
account store (`utils/user_utils.py`, absent from the sources)
modelled from the specification.
-/

set_option maxHeartbeats 1000000

/-- Python truthiness of an optional string value (`if password:`):
`None` and the empty string are falsy, every other string is truthy. -/
def pyTruthy : Option String → Bool
  | none => false
  | some s => s != ""

namespace PasswordUtils

/-- The fixed special-character set of `validate_password_strength`
(source line 85), written as a character list. -/
def specialChars : List Char :=
  ['!', '@', '#', '$', '%', '^', '&', '*', '(', ')', '_', '+', '-', '=',
   '[', ']', '{', '}', '|', ';', ':', ',', '.', '<', '>', '?']

/-- Embedding of `PasswordUtils.validate_password_strength`
(`utils/password_utils.py` lines 62-89).  Python's Unicode character
classes `isupper`/`islower`/`isdigit` are modelled by the ASCII
classifiers `Char.isUpper`/`Char.isLower`/`Char.isDigit`. -/
def validate_password_strength (password : String) : Bool × String :=
  if password.length < 8 then
    (false, "Password must be at least 8 characters long")
  else if !(password.data.any Char.isUpper) then
    (false, "Password must contain at least one uppercase letter")
  else if !(password.data.any Char.isLower) then
    (false, "Password must contain at least one lowercase letter")
  else if !(password.data.any Char.isDigit) then
    (false, "Password must contain at least one digit")
  else if !(password.data.any (fun c => specialChars.contains c)) then
    (false, "Password must contain at least one special character")
  else
    (true, "Password is valid")

/-- Modelled from the spec: the leading version/cost header of a bcrypt
hash string produced by the external `bcrypt` library. -/
def bcryptHeader : List Char := "$2b$12$".data

/-- Modelled from the spec: `bcrypt.hashpw` output layout - a
self-describing hash string embedding its own salt, followed by a
digest component.  The digest stands in for the Blowfish-derived
digest; the development uses only that verification recomputes it from
the embedded salt and plaintext and compares. -/
def mkHash (salt p : List Char) : List Char :=
  bcryptHeader ++ salt ++ '$' :: p

/-- Modelled from the spec: parsing of a bcrypt hash string into its
salt and digest components; malformed inputs yield `none`. -/
def parseHash (h : List Char) : Option (List Char × List Char) :=
  if h.take 7 = bcryptHeader then
    let rest := h.drop 7
    let salt := rest.takeWhile (fun c => c != '$')
    match rest.dropWhile (fun c => c != '$') with
    | '$' :: digest => some (salt, digest)
    | _ => none
  else none

/-- Modelled from the spec: `bcrypt.checkpw` (external library) -
recompute the digest from the embedded salt and the candidate
plaintext and compare; raise (here: `Except.error`) on a malformed
hash. -/
def checkpw (password h : List Char) : Except String Bool :=
  match parseHash h with
  | some sd => .ok (sd.2 == password)
  | none => .error "Invalid salt"

/-- Whether a modelled `bcrypt.checkpw` call returned normally rather
than raising. -/
def checkpwOk : Except String Bool → Bool
  | .ok _ => true
  | .error _ => false

/-- Embedding of `PasswordUtils.hash_password`
(`utils/password_utils.py` lines 14-37).  The random salt drawn by
`bcrypt.gensalt()` is modelled as an explicit parameter. -/
def hash_password (salt : String) (password : String) : String :=
  String.mk (mkHash salt.data password.data)

/-- Embedding of `PasswordUtils.verify_password`
(`utils/password_utils.py` lines 39-59): delegate to `bcrypt.checkpw`
and catch every exception, returning `false`. -/
def verify_password (password : String) (password_hash : String) : Bool :=
  match checkpw password.data password_hash.data with
  | .ok b => b
  | .error _ => false

end PasswordUtils

namespace MongoConfigModel

/-- Python `str.strip()` on a character list: drop leading and trailing
whitespace. -/
def pyStripL (l : List Char) : List Char :=
  ((l.dropWhile Char.isWhitespace).reverse.dropWhile Char.isWhitespace).reverse

/-- Python `str.strip()` (`config/mongodb.py` lines 16-18). -/
def pyStrip (s : String) : String :=
  String.mk (pyStripL s.data)

/-- The literal placeholder token checked for in `config/mongodb.py`
line 25. -/
def pwdTok : List Char := "<password>".data

/-- Python substring containment `tok in s`
(`config/mongodb.py` line 25). -/
def hasTok (tok : List Char) : List Char → Bool
  | [] => tok == []
  | c :: t => tok.isPrefixOf (c :: t) || hasTok tok (t)

/-- Fuel-driven scanner behind `replacePwd`; every step consumes at
least one character, so fuel equal to the input length suffices. -/
def replacePwdAux (rep : List Char) : Nat → List Char → List Char
  | _, [] => []
  | 0, l => l
  | fuel + 1, c :: t =>
    if pwdTok.isPrefixOf (c :: t) then rep ++ replacePwdAux rep fuel (t.drop 9)
    else c :: replacePwdAux rep fuel t

/-- Python `url.replace(tok, rep)` specialised to the ten-character
token `<password>` (`config/mongodb.py` line 30): replace every
occurrence, scanning left to right. -/
def replacePwd (rep l : List Char) : List Char :=
  replacePwdAux rep l.length l

/-- Hexadecimal digit characters, uppercase, as used by percent
encoding. -/
def hexDigit (n : Nat) : Char :=
  if n < 10 then Char.ofNat (48 + n) else Char.ofNat (55 + n)

/-- Modelled from the spec: per-character action of the external
`urllib.parse.quote_plus` percent encoder, for ASCII characters -
space becomes a plus sign, alphanumerics and the safe set pass
through, everything else is percent-escaped. -/
def quotePlusChar (c : Char) : List Char :=
  if c = ' ' then ['+']
  else if c.isAlphanum || ['_', '.', '-', '~'].contains c then [c]
  else ['%', hexDigit (c.toNat / 16 % 16), hexDigit (c.toNat % 16)]

/-- Modelled from the spec: the external `urllib.parse.quote_plus`
percent encoder applied to the password value
(`config/mongodb.py` line 29). -/
def quotePlus (s : String) : String :=
  String.mk (s.data.map quotePlusChar).flatten

/-- The configuration produced by a successful module start. -/
structure MongoConfig where
  url : String
  database : String
deriving DecidableEq, Repr

/-- Embedding of the module-level configuration validation of
`config/mongodb.py` lines 16-35, over the three environment values
MONGODB_URL, MONGODB_PASSWORD and MONGODB_DATABASE.  A raised
`ValueError` is modelled as `Except.error` with the (apostrophe-free
abbreviation of the) message; the checks run in source order: empty
URL, password placeholder handling, empty database name. -/
def mongodbStartup (url0 pass0 db0 : String) : Except String MongoConfig :=
  let url := pyStrip url0
  let pw := pyStrip pass0
  let db := pyStrip db0
  if url == "" then
    .error "[MongoDB] Environment variable MONGODB_URL is missing or empty"
  else if hasTok pwdTok url.data then
    if pw == "" then
      .error "[MongoDB] MONGODB_URL contains the <password> placeholder but MONGODB_PASSWORD is not set"
    else
      let url2 := String.mk (replacePwd (quotePlus pw).data url.data)
      if db == "" then
        .error "[MongoDB] Environment variable MONGODB_DATABASE is missing or empty"
      else .ok ⟨url2, db⟩
  else if db == "" then
    .error "[MongoDB] Environment variable MONGODB_DATABASE is missing or empty"
  else .ok ⟨url, db⟩

/-- Whether a startup outcome is the fatal `ValueError` path. -/
def startupFails : Except String MongoConfig → Bool
  | .error _ => true
  | .ok _ => false

end MongoConfigModel

-- sanity examples for the config model
example : MongoConfigModel.startupFails
    (MongoConfigModel.mongodbStartup "  " "p" "db") = true := by decide
example : MongoConfigModel.mongodbStartup "mongodb://u:<password>@h" "p w" "db" =
    .ok ⟨"mongodb://u:p+w@h", "db"⟩ := by rfl
example : MongoConfigModel.startupFails
    (MongoConfigModel.mongodbStartup "mongodb://u:<password>@h" "" "db") = true := by decide
example : MongoConfigModel.startupFails
    (MongoConfigModel.mongodbStartup "mongodb://u@h" "p" " ") = true := by decide

/-- A stored document, Mongo-style: an association list of field names
to string values (dict keys are unique in documents the system
builds; `popField` below removes every binding of a key, matching
`dict.pop` on dict-shaped documents). -/
abbrev Doc := List (String × String)

/-- Python `doc.get(key)` / `doc[key]` lookup on a document. -/
def getField (d : Doc) (k : String) : Option String :=
  (d.find? (fun kv => kv.1 == k)).map (fun kv => kv.2)

/-- Python `doc.pop(key, None)`: remove the key from the document. -/
def popField (d : Doc) (k : String) : Doc :=
  d.filter (fun kv => kv.1 != k)

/-- Python `doc[key] = v`: rebind the key in the document. -/
def setField (d : Doc) (k v : String) : Doc :=
  popField d k ++ [(k, v)]

/-- The users collection together with the id generator of the store
(Mongo ObjectId generation modelled as a counter). -/
structure Store where
  docs : List Doc
  nextId : Nat
deriving DecidableEq, Repr

/-- Fixed salt standing in for `bcrypt.gensalt()` randomness inside the
modelled store; it contains no dollar sign. -/
def defaultSalt : String := "modelsalt"

namespace UserUtils

/-- Modelled from the spec: `UserUtils.get_user` of the absent
`utils/user_utils.py` - AccountStore `FindById`. -/
def get_user (s : Store) (user_id : String) : Option Doc :=
  s.docs.find? (fun d => getField d "_id" == some user_id)

/-- Modelled from the spec: `UserUtils.get_user_by_email` of the absent
`utils/user_utils.py` - AccountStore `FindByEmail`. -/
def get_user_by_email (s : Store) (email : String) : Option Doc :=
  s.docs.find? (fun d => getField d "email" == some email)

/-- Modelled from the spec: `UserUtils.get_all_users` of the absent
`utils/user_utils.py` - AccountStore `ListPage`: store-native
insertion order, `skip` offsets, `limit` caps (clamping happens
upstream in the controller). -/
def get_all_users (s : Store) (limit skip : Int) : List Doc :=
  (s.docs.drop skip.toNat).take limit.toNat

/-- Modelled from the spec: `UserUtils.create_user` of the absent
`utils/user_utils.py` - AccountStore `Insert`: build the document,
hashing the password when one is (truthily) supplied, append it and
return the generated id.  Timestamps are omitted from the model (no
claim concerns them). -/
def create_user (s : Store) (email utype : String) (password : Option String) :
    Option String × Store :=
  let uid := toString s.nextId
  let base : Doc := [("_id", uid), ("email", email), ("user_type", utype)]
  let doc :=
    if pyTruthy password then
      base ++ [("password_hash",
        PasswordUtils.hash_password defaultSalt (password.getD ""))]
    else base
  (some uid, { docs := s.docs ++ [doc], nextId := s.nextId + 1 })

/-- Modelled from the spec: `UserUtils.verify_user_password` of the
absent `utils/user_utils.py` - fetch the account and check the old
plaintext against the stored hash with `VerifyPassword`. -/
def verify_user_password (s : Store) (user_id password : String) : Bool :=
  match get_user s user_id with
  | some d =>
    match getField d "password_hash" with
    | some h => PasswordUtils.verify_password password h
    | none => false
  | none => false

/-- Modelled from the spec: `UserUtils.update_user_password` of the
absent `utils/user_utils.py` - AccountStore `UpdatePasswordHash`:
hash the new password, set it on the matching document and report
whether a document matched. -/
def update_user_password (s : Store) (user_id newPassword : String) :
    Bool × Store :=
  let newHash := PasswordUtils.hash_password defaultSalt newPassword
  if s.docs.any (fun d => getField d "_id" == some user_id) then
    (true, { s with docs := s.docs.map (fun d =>
      if getField d "_id" == some user_id then setField d "password_hash" newHash
      else d) })
  else (false, s)

end UserUtils

/-- Embedding of the `UserType` enumeration of `models/user.py`:
membership of the role string in the enum. -/
def isValidUserType (utype : String) : Bool :=
  utype == "ADMIN" || utype == "USER"

/-- Modelled from the spec: the external Pydantic `EmailStr` validator -
a syntactically valid email address: exactly one at sign separating a
non-empty local part from a non-empty domain that contains a dot and
no whitespace. -/
def isValidEmail (email : String) : Bool :=
  let l := email.data
  l.count '@' == 1 &&
  (l.takeWhile (fun c => c != '@')) != [] &&
  (let dom := (l.dropWhile (fun c => c != '@')).drop 1
   dom != [] && dom.contains '.' && !(l.any Char.isWhitespace))

/-- A value occurring in a controller response dictionary. -/
inductive RVal where
  | s (v : String)
  | b (v : Bool)
  | n (v : Int)
  | d (v : Doc)
  | ds (v : List Doc)
deriving DecidableEq, Repr

/-- A controller result: the response dictionary paired with the HTTP
status code, as in the `(response_dict, status_code)` tuples of
`controllers/user_controller.py`. -/
abbrev Resp := List (String × RVal) × Nat

/-- The `data` dictionary accepted by `UserController.create_user`:
each field is `none` when the key is absent. -/
structure CreateData where
  email : Option String
  user_type : Option String
  password : Option String
deriving DecidableEq, Repr

/-- The `data` dictionary accepted by
`UserController.change_password`. -/
structure ChangeData where
  old_password : Option String
  new_password : Option String
deriving DecidableEq, Repr

namespace UserController

/-- Embedding of `UserController.create_user`
(`controllers/user_controller.py` lines 17-77), threading the store
state: validate required fields, password strength (only when the
password is truthy), the Pydantic model, then the duplicate-email
check, and only then insert.  A falsy `data` payload is `none`;
Pydantic error details are abbreviated to the fixed message. -/
def create_user (s : Store) (data : Option CreateData) : Resp × Store :=
  match data with
  | none => (([("error", .s "No data provided")], 400), s)
  | some d =>
    match d.email, d.user_type with
    | some email, some utype =>
      let password := d.password
      let strength := PasswordUtils.validate_password_strength (password.getD "")
      if pyTruthy password && !strength.1 then
        (([("error", .s strength.2)], 400), s)
      else if !(isValidEmail email && isValidUserType utype) then
        (([("error", .s "Validation error")], 400), s)
      else if (UserUtils.get_user_by_email s email).isSome then
        (([("error", .s "User with this email already exists")], 409), s)
      else
        match UserUtils.create_user s email utype password with
        | (some uid, s2) =>
          let body := [("message", RVal.s "User created successfully"),
                       ("user_id", RVal.s uid),
                       ("email", RVal.s email),
                       ("user_type", RVal.s utype)]
          let body := if pyTruthy password then body ++ [("has_password", RVal.b true)]
                      else body
          ((body, 201), s2)
        | (none, s2) => (([("error", .s "Failed to create user")], 500), s2)
    | _, _ => (([("error", .s "email and user_type are required")], 400), s)

/-- Embedding of `UserController.get_user`
(`controllers/user_controller.py` lines 79-106): fetch by id and pop
`password_hash` from the response. -/
def get_user (s : Store) (user_id : String) : Resp :=
  match UserUtils.get_user s user_id with
  | some user =>
    ([("message", .s "User retrieved successfully"),
      ("user", .d (popField user "password_hash"))], 200)
  | none => ([("error", .s "User not found")], 404)

/-- Embedding of `UserController.get_user_by_email`
(`controllers/user_controller.py` lines 146-173): fetch by email and
pop `password_hash` from the response. -/
def get_user_by_email (s : Store) (email : String) : Resp :=
  match UserUtils.get_user_by_email s email with
  | some user =>
    ([("message", .s "User retrieved successfully"),
      ("user", .d (popField user "password_hash"))], 200)
  | none => ([("error", .s "User not found")], 404)

/-- Embedding of `UserController.get_all_users`
(`controllers/user_controller.py` lines 175-210): clamp the limit to
100, list the page and pop `password_hash` from every record. -/
def get_all_users (s : Store) (limit skip : Int) : Resp :=
  let limit := min limit 100
  let users := (UserUtils.get_all_users s limit skip).map
    (fun u => popField u "password_hash")
  ([("message", .s "Users retrieved successfully"),
    ("users", .ds users),
    ("count", .n users.length),
    ("limit", .n limit),
    ("skip", .n skip)], 200)

/-- Embedding of `UserController.change_password`
(`controllers/user_controller.py` lines 212-267), threading the store
state: required fields, account existence, password-set check, old
password verification, new password strength, difference check, then
the persisted update. -/
def change_password (s : Store) (user_id : String) (data : Option ChangeData) :
    Resp × Store :=
  match data with
  | none => (([("error", .s "No data provided")], 400), s)
  | some d =>
    match d.old_password, d.new_password with
    | some oldp, some newp =>
      match UserUtils.get_user s user_id with
      | none => (([("error", .s "User not found")], 404), s)
      | some user =>
        if !(pyTruthy (getField user "password_hash")) then
          (([("error", .s "User does not have a password set")], 400), s)
        else if !(UserUtils.verify_user_password s user_id oldp) then
          (([("error", .s "Invalid old password")], 401), s)
        else
          let strength := PasswordUtils.validate_password_strength newp
          if !strength.1 then
            (([("error", .s strength.2)], 400), s)
          else if oldp == newp then
            (([("error", .s "New password must be different from old password")], 400), s)
          else
            match UserUtils.update_user_password s user_id newp with
            | (true, s2) =>
              (([("message", .s "Password changed successfully"),
                 ("user_id", .s user_id)], 200), s2)
            | (false, s2) => (([("error", .s "Failed to change password")], 500), s2)
    | _, _ => (([("error", .s "old_password and new_password are required")], 400), s)

end UserController

-- sanity examples for the controller over a concrete store
example :
    (UserController.create_user ⟨[], 0⟩
      (some ⟨some "a@b.com", some "USER", none⟩)).1.2 = 201 := by decide
example :
    (UserController.create_user ⟨[], 0⟩
      (some ⟨some "a@b.com", some "BOSS", none⟩)).1.2 = 400 := by decide
example :
    (UserController.create_user
      ⟨[[("_id", "0"), ("email", "a@b.com"), ("user_type", "USER")]], 1⟩
      (some ⟨some "a@b.com", some "USER", none⟩)).1.2 = 409 := by decide

namespace ConnModel

/-- The shared state of `MongoDBConnection`
(`config/mongodb.py` lines 40-95): the cached `_client` (a connection
handle, modelled as a numeric id) and a count of underlying
connections created so far (each `_connect` call creates one). -/
structure ConnSt where
  client : Option Nat
  connects : Nat
deriving DecidableEq, Repr

/-- One interpreter step of a caller establishing the handle.  The
source guards establishment with the plain statement
`if self._client is None: self._connect()` and takes no lock, so the
null check (pc 0) and the `_connect` body that assigns `_client`
(pc 1) are separate atomic steps; pc 2 is completion. -/
def stepThread (c : ConnSt) (pc : Nat) : ConnSt × Nat :=
  match pc with
  | 0 => if c.client == none then (c, 1) else (c, 2)
  | 1 => ({ client := some 1, connects := c.connects + 1 }, 2)
  | _ => (c, pc)

/-- Two concurrent first callers and the shared connection state. -/
structure SysSt where
  conn : ConnSt
  t1 : Nat
  t2 : Nat
deriving DecidableEq, Repr

/-- Run a schedule - an interleaving given as the list of thread ids
taking successive steps. -/
def runSched : List Nat → SysSt → SysSt
  | [], st => st
  | i :: rest, st =>
    if i == 1 then
      let (c, p) := stepThread st.conn st.t1
      runSched rest { conn := c, t1 := p, t2 := st.t2 }
    else
      let (c, p) := stepThread st.conn st.t2
      runSched rest { conn := c, t1 := st.t1, t2 := p }

/-- The initial state: no handle established, both callers at the null
check. -/
def initSt : SysSt := ⟨⟨none, 0⟩, 0, 0⟩

end ConnModel

example : (ConnModel.runSched [1, 1, 2, 2] ConnModel.initSt).conn.connects = 1 := by decide
example : (ConnModel.runSched [1, 2, 1, 2] ConnModel.initSt).conn.connects = 2 := by decide

-- general-purpose helper lemmas

theorem string_data_inj {a b : String} (h : a.data = b.data) : a = b :=
  String.ext h

theorem takeWhile_ne_append {p tail : List Char}
    (hs : ('$' : Char) ∉ p) :
    (p ++ '$' :: tail).takeWhile (fun c => c != '$') = p := by
  induction p with
  | nil => simp
  | cons c t ih =>
    have hc : c ≠ '$' := fun h => hs (h ▸ List.mem_cons_self c t)
    have ht : ('$' : Char) ∉ t := fun h => hs (List.mem_cons_of_mem c h)
    simp only [List.cons_append, List.takeWhile_cons]
    simp [hc, ih ht]

theorem dropWhile_ne_append {p tail : List Char}
    (hs : ('$' : Char) ∉ p) :
    (p ++ '$' :: tail).dropWhile (fun c => c != '$') = '$' :: tail := by
  induction p with
  | nil => simp
  | cons c t ih =>
    have hc : c ≠ '$' := fun h => hs (h ▸ List.mem_cons_self c t)
    have ht : ('$' : Char) ∉ t := fun h => hs (List.mem_cons_of_mem c h)
    simp only [List.cons_append, List.dropWhile_cons]
    simp [hc, ih ht]

theorem parseHash_mkHash (salt p : List Char) (hs : ('$' : Char) ∉ salt) :
    PasswordUtils.parseHash (PasswordUtils.mkHash salt p) = some (salt, p) := by
  have hlen : PasswordUtils.bcryptHeader.length = 7 := by decide
  simp only [PasswordUtils.parseHash, PasswordUtils.mkHash, List.append_assoc,
    List.take_left' hlen, List.drop_left' hlen, if_pos rfl]
  rw [takeWhile_ne_append hs, dropWhile_ne_append hs]
  simp

theorem verify_hash_self (salt p : String) (hs : ('$' : Char) ∉ salt.data) :
    PasswordUtils.verify_password p (PasswordUtils.hash_password salt p) = true := by
  simp [PasswordUtils.verify_password, PasswordUtils.hash_password,
    PasswordUtils.checkpw, parseHash_mkHash salt.data p.data hs]

theorem verify_hash_other (salt p p2 : String) (hs : ('$' : Char) ∉ salt.data)
    (hne : p2 ≠ p) :
    PasswordUtils.verify_password p2 (PasswordUtils.hash_password salt p) = false := by
  have hd : p.data ≠ p2.data := fun h => hne (string_data_inj h.symm)
  simp [PasswordUtils.verify_password, PasswordUtils.hash_password,
    PasswordUtils.checkpw, parseHash_mkHash salt.data p.data hs, hd]

-- sanity examples for the password model
example : (PasswordUtils.validate_password_strength "Valid1Pass!").1 = true := by decide
example : PasswordUtils.validate_password_strength "NoSpecial1" =
    (false, "Password must contain at least one special character") := by decide
example : PasswordUtils.verify_password "abc"
    (PasswordUtils.hash_password "saltsalt" "abc") = true := by decide
example : PasswordUtils.verify_password "abd"
    (PasswordUtils.hash_password "saltsalt" "abc") = false := by decide
example : PasswordUtils.verify_password "abc" "nothash" = false := by decide

-- claim theorems

/-- Claim C1: for every password string, `validate_password_strength`
applies exactly five checks in the fixed order - length at least 8,
an uppercase letter, a lowercase letter, a digit, a character from the
fixed special set - returning `(false, reason)` for the first failed
check, and returns `(true, "Password is valid")` if and only if all
five checks hold. -/
theorem C1_validate_password_strength_policy (p : String) :
    (p.length < 8 →
      PasswordUtils.validate_password_strength p =
        (false, "Password must be at least 8 characters long")) ∧
    (8 ≤ p.length → p.data.any Char.isUpper = false →
      PasswordUtils.validate_password_strength p =
        (false, "Password must contain at least one uppercase letter")) ∧
    (8 ≤ p.length → p.data.any Char.isUpper = true →
      p.data.any Char.isLower = false →
      PasswordUtils.validate_password_strength p =
        (false, "Password must contain at least one lowercase letter")) ∧
    (8 ≤ p.length → p.data.any Char.isUpper = true →
      p.data.any Char.isLower = true → p.data.any Char.isDigit = false →
      PasswordUtils.validate_password_strength p =
        (false, "Password must contain at least one digit")) ∧
    (8 ≤ p.length → p.data.any Char.isUpper = true →
      p.data.any Char.isLower = true → p.data.any Char.isDigit = true →
      p.data.any (fun c => PasswordUtils.specialChars.contains c) = false →
      PasswordUtils.validate_password_strength p =
        (false, "Password must contain at least one special character")) ∧
    (PasswordUtils.validate_password_strength p = (true, "Password is valid") ↔
      (8 ≤ p.length ∧ p.data.any Char.isUpper = true ∧
       p.data.any Char.isLower = true ∧ p.data.any Char.isDigit = true ∧
       p.data.any (fun c => PasswordUtils.specialChars.contains c) = true)) := by
  unfold PasswordUtils.validate_password_strength
  refine ⟨?_, ?_, ?_, ?_, ?_, ?_⟩
  · intro h1; simp [h1]
  · intro h1 h2
    have hn : ¬ p.length < 8 := by omega
    simp [hn, h2]
  · intro h1 h2 h3
    have hn : ¬ p.length < 8 := by omega
    simp [hn, h2, h3]
  · intro h1 h2 h3 h4
    have hn : ¬ p.length < 8 := by omega
    simp [hn, h2, h3, h4]
  · intro h1 h2 h3 h4 h5
    have hn : ¬ p.length < 8 := by omega
    simp only [h5]
    simp [hn, h2, h3, h4]
  · split_ifs with h1 h2 h3 h4 h5 <;> simp_all [Nat.not_lt]

/-- Witness for C1 at concrete inputs: a password lacking an uppercase
letter is rejected by the second check. -/
theorem C1_validate_password_strength_policy_witness :
    PasswordUtils.validate_password_strength "alllower1!" =
      (false, "Password must contain at least one uppercase letter") :=
  (C1_validate_password_strength_policy "alllower1!").2.1 (by decide) (by decide)

/-- Claim C2: hashing then verifying round-trips - for any non-empty
password the verification of the password against its own hash
succeeds, and verification of any different password against that hash
fails.  The external bcrypt primitives are modelled from the spec with
the salt as an explicit parameter (assumed free of the separator
character of the hash format). -/
theorem C2_hash_verify_roundtrip (salt p p2 : String)
    (hs : ('$' : Char) ∉ salt.data) (_hp : p ≠ "") :
    PasswordUtils.verify_password p (PasswordUtils.hash_password salt p) = true ∧
    (p2 ≠ p →
      PasswordUtils.verify_password p2 (PasswordUtils.hash_password salt p) = false) :=
  ⟨verify_hash_self salt p hs, fun hne => verify_hash_other salt p p2 hs hne⟩

/-- Witness for C2 at concrete inputs. -/
theorem C2_hash_verify_roundtrip_witness :
    PasswordUtils.verify_password "Secret1!"
      (PasswordUtils.hash_password "saltsalt" "Secret1!") = true ∧
    PasswordUtils.verify_password "Other2at"
      (PasswordUtils.hash_password "saltsalt" "Secret1!") = false := by
  have h := C2_hash_verify_roundtrip "saltsalt" "Secret1!" "Other2at"
    (by decide) (by decide)
  exact ⟨h.1, h.2 (by decide)⟩

/-- Claim C7: `verify_password` is a total boolean function (the
embedding catches the modelled bcrypt exception), and on malformed
hash input - where the modelled `bcrypt.checkpw` raises - it returns
`false`. -/
theorem C7_verify_password_never_throws (p h : String)
    (hm : PasswordUtils.checkpwOk (PasswordUtils.checkpw p.data h.data) = false) :
    PasswordUtils.verify_password p h = false := by
  unfold PasswordUtils.verify_password
  cases hc : PasswordUtils.checkpw p.data h.data with
  | ok b => rw [hc] at hm; simp [PasswordUtils.checkpwOk] at hm
  | error e => simp

/-- Witness for C7 at a concrete malformed hash. -/
theorem C7_verify_password_never_throws_witness :
    PasswordUtils.verify_password "AnyPass1!" "nothash" = false :=
  C7_verify_password_never_throws "AnyPass1!" "nothash" (by decide)

/-- Claim C8: at process start a missing or empty connection URL, and a
missing or empty database name, each make the configuration module
raise (fatal startup); when the URL contains the literal <password>
placeholder a separate password is required (fatal otherwise) and the
substituted URL carries the percent-encoded password. -/
theorem C8_startup_configuration (url pw db : String) :
    (MongoConfigModel.pyStrip url = "" →
      MongoConfigModel.startupFails (MongoConfigModel.mongodbStartup url pw db) = true) ∧
    (MongoConfigModel.pyStrip db = "" →
      MongoConfigModel.startupFails (MongoConfigModel.mongodbStartup url pw db) = true) ∧
    (MongoConfigModel.hasTok MongoConfigModel.pwdTok
        (MongoConfigModel.pyStrip url).data = true →
      MongoConfigModel.pyStrip pw = "" →
      MongoConfigModel.startupFails (MongoConfigModel.mongodbStartup url pw db) = true) ∧
    (MongoConfigModel.pyStrip url ≠ "" →
      MongoConfigModel.hasTok MongoConfigModel.pwdTok
        (MongoConfigModel.pyStrip url).data = true →
      MongoConfigModel.pyStrip pw ≠ "" →
      MongoConfigModel.pyStrip db ≠ "" →
      MongoConfigModel.mongodbStartup url pw db =
        .ok ⟨String.mk (MongoConfigModel.replacePwd
              (MongoConfigModel.quotePlus (MongoConfigModel.pyStrip pw)).data
              (MongoConfigModel.pyStrip url).data),
            MongoConfigModel.pyStrip db⟩) := by
  refine ⟨?_, ?_, ?_, ?_⟩
  · intro h
    simp [MongoConfigModel.mongodbStartup, MongoConfigModel.startupFails, h]
  · intro h
    by_cases h1 : MongoConfigModel.pyStrip url = ""
    · simp [MongoConfigModel.mongodbStartup, MongoConfigModel.startupFails, h1]
    · by_cases h2 : MongoConfigModel.hasTok MongoConfigModel.pwdTok
        (MongoConfigModel.pyStrip url).data = true
      · by_cases h3 : MongoConfigModel.pyStrip pw = ""
        · simp [MongoConfigModel.mongodbStartup, MongoConfigModel.startupFails,
            h1, h2, h3]
        · simp [MongoConfigModel.mongodbStartup, MongoConfigModel.startupFails,
            h1, h2, h3, h]
      · simp [MongoConfigModel.mongodbStartup, MongoConfigModel.startupFails,
          h1, h2, h]
  · intro h2 h3
    by_cases h1 : MongoConfigModel.pyStrip url = "" <;>
      simp [MongoConfigModel.mongodbStartup, MongoConfigModel.startupFails,
        h1, h2, h3]
  · intro h1 h2 h3 h4
    simp [MongoConfigModel.mongodbStartup, h1, h2, h3, h4]

/-- Witness for C8 at concrete inputs: a placeholder URL with a password
containing a space and a special character is substituted with the
percent-encoded password. -/
theorem C8_startup_configuration_witness :
    MongoConfigModel.mongodbStartup "mongodb://u:<password>@h" "p w" "mydb" =
      .ok ⟨String.mk (MongoConfigModel.replacePwd
            (MongoConfigModel.quotePlus (MongoConfigModel.pyStrip "p w")).data
            (MongoConfigModel.pyStrip "mongodb://u:<password>@h").data),
          MongoConfigModel.pyStrip "mydb"⟩ :=
  (C8_startup_configuration "mongodb://u:<password>@h" "p w" "mydb").2.2.2
    (by decide) (by decide) (by decide) (by decide)

/-- Claim C9 counterexample: first-time establishment of the shared
handle is a plain unguarded check-then-set
(`if self._client is None: self._connect()` with no lock), so the
interleaving in which both first callers pass the null check before
either assigns the handle makes both execute `_connect`, creating two
underlying connections - refuting the claimed mutual exclusion. -/
theorem C9_singleton_race_counterexample :
    (ConnModel.runSched [1, 2, 1, 2] ConnModel.initSt).conn.connects = 2 := by
  decide

/-- Claim C9 amended: first-time establishment is an unguarded
check-then-set - a caller whose check step sees an established handle
reuses it and creates no new connection, and a first caller that runs
to completion before the second starts leaves a single connection, but
two concurrent first callers can interleave their check and connect
steps so that two underlying connections are created. -/
theorem C9_unguarded_check_then_set :
    (∀ (c : ConnModel.ConnSt) (k : Nat), c.client = some k →
      ConnModel.stepThread c 0 = (c, 2)) ∧
    (ConnModel.runSched [1, 1, 2, 2] ConnModel.initSt).conn.connects = 1 ∧
    (ConnModel.runSched [1, 2, 1, 2] ConnModel.initSt).conn.connects = 2 := by
  refine ⟨?_, by decide, by decide⟩
  intro c k h
  simp [ConnModel.stepThread, h]

/-- Witness for C9 amended at a concrete established state. -/
theorem C9_unguarded_check_then_set_witness :
    ConnModel.stepThread ⟨some 5, 1⟩ 0 = (⟨some 5, 1⟩, 2) :=
  C9_unguarded_check_then_set.1 ⟨some 5, 1⟩ 5 rfl

theorem popField_keys (d : Doc) (k : String) :
    ((popField d k).map Prod.fst).contains k = false := by
  induction d with
  | nil => rfl
  | cons kv t ih =>
    by_cases h : kv.1 = k
    · simp only [popField, List.filter_cons] at ih ⊢
      simp [h, ih]
    · simpa [popField, List.filter_cons, h, ih] using fun heq => h heq.symm

/-- Claim C4: the results of the read operations - get by id, get by
email, list - never contain a `password_hash` field, even when the
stored record carries one (the store `s` is universally quantified, so
in particular over stores whose documents have the field). -/
theorem C4_reads_strip_password_hash (s : Store) (uid email : String)
    (limit skip : Int) :
    (∀ dv, ("user", RVal.d dv) ∈ (UserController.get_user s uid).1 →
      (dv.map Prod.fst).contains "password_hash" = false) ∧
    (∀ dv, ("user", RVal.d dv) ∈ (UserController.get_user_by_email s email).1 →
      (dv.map Prod.fst).contains "password_hash" = false) ∧
    (∀ docs u, ("users", RVal.ds docs) ∈ (UserController.get_all_users s limit skip).1 →
      u ∈ docs → (u.map Prod.fst).contains "password_hash" = false) := by
  refine ⟨?_, ?_, ?_⟩
  · intro dv hdv
    cases hu : UserUtils.get_user s uid with
    | some user =>
      rw [UserController.get_user, hu] at hdv
      simp at hdv
      rw [hdv]
      exact popField_keys user "password_hash"
    | none =>
      rw [UserController.get_user, hu] at hdv
      simp at hdv
  · intro dv hdv
    cases hu : UserUtils.get_user_by_email s email with
    | some user =>
      rw [UserController.get_user_by_email, hu] at hdv
      simp at hdv
      rw [hdv]
      exact popField_keys user "password_hash"
    | none =>
      rw [UserController.get_user_by_email, hu] at hdv
      simp at hdv
  · intro docs u hdocs hu
    rw [UserController.get_all_users] at hdocs
    simp at hdocs
    rw [hdocs] at hu
    simp at hu
    obtain ⟨v, _, hv⟩ := hu
    rw [← hv]
    exact popField_keys v "password_hash"

/-- Witness for C4 at a concrete store whose single document carries a
`password_hash` field. -/
theorem C4_reads_strip_password_hash_witness :
    ((popField [("_id", "0"), ("email", "a@b.com"), ("user_type", "USER"),
        ("password_hash", "h")] "password_hash").map
      Prod.fst).contains "password_hash" = false :=
  (C4_reads_strip_password_hash
      ⟨[[("_id", "0"), ("email", "a@b.com"), ("user_type", "USER"),
         ("password_hash", "h")]], 1⟩ "0" "a@b.com" 50 0).1
    (popField [("_id", "0"), ("email", "a@b.com"), ("user_type", "USER"),
      ("password_hash", "h")] "password_hash") (by decide)

/-- Claim C5: listing users silently clamps the limit to at most 100 -
the effective limit is min(limit, 100), the status is always 200 (no
error for an over-large limit), the returned page has at most
min(limit, 100) records, and in particular limit 1000 with skip 0
returns at most 100 records. -/
theorem C5_list_accounts_clamps_limit (s : Store) (limit skip : Int) :
    (UserController.get_all_users s limit skip).2 = 200 ∧
    ("limit", RVal.n (min limit 100)) ∈ (UserController.get_all_users s limit skip).1 ∧
    (∀ docs, ("users", RVal.ds docs) ∈ (UserController.get_all_users s limit skip).1 →
      docs.length ≤ (min limit 100).toNat) ∧
    (∀ docs, ("users", RVal.ds docs) ∈ (UserController.get_all_users s 1000 0).1 →
      docs.length ≤ 100) := by
  refine ⟨rfl, ?_, ?_, ?_⟩
  · rw [UserController.get_all_users]
    simp
  · intro docs hdocs
    rw [UserController.get_all_users] at hdocs
    simp at hdocs
    rw [hdocs]
    simp [UserUtils.get_all_users, List.length_take]
  · intro docs hdocs
    rw [UserController.get_all_users] at hdocs
    simp at hdocs
    rw [hdocs]
    simp [UserUtils.get_all_users, List.length_take]

/-- Witness for C5 at a concrete store and limit. -/
theorem C5_list_accounts_clamps_limit_witness :
    ([] : List Doc).length ≤ (min (5 : Int) 100).toNat :=
  (C5_list_accounts_clamps_limit ⟨[], 0⟩ 5 0).2.2.1 [] (by decide)


theorem find?_popField_self (d : Doc) (k : String) :
    List.find? (fun kv => kv.1 == k) (popField d k) = none := by
  rw [List.find?_eq_none]
  intro x hx
  have hne := (List.mem_filter.mp hx).2
  simp only [bne_iff_ne, ne_eq] at hne
  simp [hne]

theorem getField_setField_same (d : Doc) (k v : String) :
    getField (setField d k v) k = some v := by
  rw [setField, getField, List.find?_append, find?_popField_self]
  simp [List.find?_cons]

theorem find?_popField_ne (d : Doc) (k k2 : String) (h : k2 ≠ k) :
    List.find? (fun kv => kv.1 == k2) (popField d k) =
      List.find? (fun kv => kv.1 == k2) d := by
  induction d with
  | nil => rfl
  | cons kv t ih =>
    by_cases hk : kv.1 = k
    · have hbne : (kv.1 != k) = false := by simp [hk]
      have hb2 : (kv.1 == k2) = false :=
        beq_eq_false_iff_ne.mpr (by rw [hk]; exact Ne.symm h)
      rw [popField, List.filter_cons]
      simp only [hbne, Bool.false_eq_true, if_false]
      rw [List.find?_cons_of_neg _ (by simp [hb2])]
      exact ih
    · have hbne : (kv.1 != k) = true := by simp [hk]
      rw [popField, List.filter_cons]
      simp only [hbne, if_true]
      by_cases hk2 : (kv.1 == k2) = true
      · simp [List.find?_cons, hk2]
      · have hb2 : (kv.1 == k2) = false := by simp_all
        rw [popField] at ih
        simp only [List.find?_cons, hb2]
        exact ih

theorem getField_setField_ne (d : Doc) (k v k2 : String) (h : k2 ≠ k) :
    getField (setField d k v) k2 = getField d k2 := by
  rw [setField, getField, List.find?_append]
  have h2 : List.find? (fun kv => kv.1 == k2) [(k, v)] = none := by
    have hb : ((k : String) == k2) = false := beq_eq_false_iff_ne.mpr (Ne.symm h)
    simp [List.find?_cons, hb]
  rw [h2, Option.or_none, find?_popField_ne d k k2 h, getField]

theorem get_user_after_update (s : Store) (uid newp : String) (u : Doc)
    (hu : UserUtils.get_user s uid = some u) :
    (UserUtils.update_user_password s uid newp).1 = true ∧
    UserUtils.get_user (UserUtils.update_user_password s uid newp).2 uid =
      some (setField u "password_hash"
        (PasswordUtils.hash_password defaultSalt newp)) := by
  rw [UserUtils.get_user] at hu
  have hmem := List.mem_of_find?_eq_some hu
  have hpu := List.find?_some hu
  have hany : s.docs.any (fun d => getField d "_id" == some uid) = true := by
    rw [List.any_eq_true]
    exact ⟨u, hmem, hpu⟩
  have hupd : UserUtils.update_user_password s uid newp =
      (true, { s with docs := s.docs.map (fun d =>
        if getField d "_id" == some uid then
          setField d "password_hash" (PasswordUtils.hash_password defaultSalt newp)
        else d) }) := by
    rw [UserUtils.update_user_password, if_pos hany]
  refine ⟨by rw [hupd], ?_⟩
  rw [hupd, UserUtils.get_user]
  have hfun : ((fun d : Doc => getField d "_id" == some uid) ∘
      (fun d : Doc => if getField d "_id" == some uid then
        setField d "password_hash" (PasswordUtils.hash_password defaultSalt newp)
      else d)) = (fun d : Doc => getField d "_id" == some uid) := by
    funext d
    by_cases hd : (getField d "_id" == some uid) = true
    · simp only [Function.comp_apply, if_pos hd,
        getField_setField_ne d "password_hash"
          (PasswordUtils.hash_password defaultSalt newp) "_id" (by decide)]
    · simp only [Function.comp_apply, if_neg hd]
  rw [List.find?_map, hfun, hu]
  simp only [Option.map_some']
  rw [if_pos hpu]

/-- Claim C3: change_password performs its checks in the fixed order -
account existence (404 NotFound), password set (400 Validation with
the does-not-have-a-password message, never 401), old password
verification (401 Auth), new password strength (400 Validation),
new-equals-old (400 Validation) - returning the error of the first
failing check with the store unchanged, and otherwise hashes and
persists the new password. -/
theorem C3_change_password_check_order (s : Store) (uid oldp newp : String) :
    (UserUtils.get_user s uid = none →
      UserController.change_password s uid (some ⟨some oldp, some newp⟩) =
        (([("error", RVal.s "User not found")], 404), s)) ∧
    (∀ u, UserUtils.get_user s uid = some u →
      pyTruthy (getField u "password_hash") = false →
      UserController.change_password s uid (some ⟨some oldp, some newp⟩) =
        (([("error", RVal.s "User does not have a password set")], 400), s)) ∧
    (∀ u, UserUtils.get_user s uid = some u →
      pyTruthy (getField u "password_hash") = true →
      UserUtils.verify_user_password s uid oldp = false →
      UserController.change_password s uid (some ⟨some oldp, some newp⟩) =
        (([("error", RVal.s "Invalid old password")], 401), s)) ∧
    (∀ u, UserUtils.get_user s uid = some u →
      pyTruthy (getField u "password_hash") = true →
      UserUtils.verify_user_password s uid oldp = true →
      (PasswordUtils.validate_password_strength newp).1 = false →
      UserController.change_password s uid (some ⟨some oldp, some newp⟩) =
        (([("error", RVal.s (PasswordUtils.validate_password_strength newp).2)], 400), s)) ∧
    (∀ u, UserUtils.get_user s uid = some u →
      pyTruthy (getField u "password_hash") = true →
      UserUtils.verify_user_password s uid oldp = true →
      (PasswordUtils.validate_password_strength newp).1 = true →
      oldp = newp →
      UserController.change_password s uid (some ⟨some oldp, some newp⟩) =
        (([("error", RVal.s "New password must be different from old password")], 400), s)) ∧
    (∀ u, UserUtils.get_user s uid = some u →
      pyTruthy (getField u "password_hash") = true →
      UserUtils.verify_user_password s uid oldp = true →
      (PasswordUtils.validate_password_strength newp).1 = true →
      oldp ≠ newp →
      (UserController.change_password s uid (some ⟨some oldp, some newp⟩)).1.2 = 200 ∧
      UserUtils.get_user
          (UserController.change_password s uid (some ⟨some oldp, some newp⟩)).2 uid =
        some (setField u "password_hash"
          (PasswordUtils.hash_password defaultSalt newp))) := by
  refine ⟨?_, ?_, ?_, ?_, ?_, ?_⟩
  · intro hu
    rw [UserController.change_password, hu]
  · intro u hu hpw
    rw [UserController.change_password, hu]
    simp [hpw]
  · intro u hu hpw hv
    rw [UserController.change_password, hu]
    simp [hpw, hv]
  · intro u hu hpw hv hst
    rw [UserController.change_password, hu]
    simp [hpw, hv, hst]
  · intro u hu hpw hv hst heq
    rw [UserController.change_password, hu]
    have hbe : (oldp == newp) = true := by rw [heq]; exact beq_self_eq_true newp
    simp [hpw, hv, hst, hbe]
  · intro u hu hpw hv hst hne
    have hupd := get_user_after_update s uid newp u hu
    rw [UserController.change_password, hu]
    have hbe : (oldp == newp) = false := beq_eq_false_iff_ne.mpr hne
    simp only [hpw, hv, hst, hbe, Bool.not_true, Bool.false_eq_true, if_false,
      Bool.not_false, if_true]
    cases hres : UserUtils.update_user_password s uid newp with
    | mk ok s2 =>
      rw [hres] at hupd
      simp only at hupd
      cases ok with
      | true => exact ⟨rfl, hupd.2⟩
      | false => exact absurd hupd.1 (by simp)

/-- Witness for C3 at a concrete account with no password set: the
result is the ValidationError response with status 400, not 401. -/
theorem C3_change_password_check_order_witness :
    UserController.change_password
        ⟨[[("_id", "0"), ("email", "a@b.com"), ("user_type", "USER")]], 1⟩ "0"
        (some ⟨some "OldPass1!", some "NewPass1!"⟩) =
      (([("error", RVal.s "User does not have a password set")], 400),
       ⟨[[("_id", "0"), ("email", "a@b.com"), ("user_type", "USER")]], 1⟩) :=
  (C3_change_password_check_order
      ⟨[[("_id", "0"), ("email", "a@b.com"), ("user_type", "USER")]], 1⟩
      "0" "OldPass1!" "NewPass1!").2.1
    [("_id", "0"), ("email", "a@b.com"), ("user_type", "USER")]
    (by decide) (by decide)

theorem create_user_exists_conflict (s : Store) (email utype : String)
    (pwd : Option String)
    (hskip : (pyTruthy pwd &&
      !(PasswordUtils.validate_password_strength (pwd.getD "")).1) = false)
    (he : isValidEmail email = true) (ht : isValidUserType utype = true)
    (hex : (UserUtils.get_user_by_email s email).isSome = true) :
    UserController.create_user s (some ⟨some email, some utype, pwd⟩) =
      (([("error", RVal.s "User with this email already exists")], 409), s) := by
  simp [UserController.create_user, hskip, he, ht, hex]

theorem getField_insert_email (uid email utype : String) (rest : Doc) :
    getField (("_id", uid) :: ("email", email) :: ("user_type", utype) :: rest)
      "email" = some email := by
  have h1 : (("_id" : String) == "email") = false := by decide
  have h2 : (("email" : String) == "email") = true := by decide
  simp [getField, List.find?_cons, h1, h2]

/-- Claim C6 counterexample: with an account for a@b.com already stored
(so ExistsByEmail is true), a creation request for that same email
carrying the weak password "weak" is rejected by the strength check -
a ValidationError with status 400 and the length message - rather than
with ConflictError (409), because the code checks validation before
the duplicate-email check. -/
theorem C6_conflict_counterexample :
    (UserUtils.get_user_by_email
        ⟨[[("_id", "0"), ("email", "a@b.com"), ("user_type", "USER")]], 1⟩
        "a@b.com").isSome = true ∧
    UserController.create_user
        ⟨[[("_id", "0"), ("email", "a@b.com"), ("user_type", "USER")]], 1⟩
        (some ⟨some "a@b.com", some "USER", some "weak"⟩) =
      (([("error", RVal.s "Password must be at least 8 characters long")], 400),
       ⟨[[("_id", "0"), ("email", "a@b.com"), ("user_type", "USER")]], 1⟩) :=
  ⟨by decide, by decide⟩

/-- Claim C6 amended: for a creation request that passes the earlier
validation checks (any supplied password is strong, the email and role
are valid), an already-used email yields ConflictError with no insert
and the store unchanged; with a fresh email the creation succeeds
(201) exactly once - an identical second call yields ConflictError and
leaves the store unchanged. -/
theorem C6_create_account_unique (s : Store) (email utype : String)
    (pwd : Option String)
    (hpw : pyTruthy pwd = true →
      (PasswordUtils.validate_password_strength (pwd.getD "")).1 = true)
    (he : isValidEmail email = true) (ht : isValidUserType utype = true) :
    ((UserUtils.get_user_by_email s email).isSome = true →
      UserController.create_user s (some ⟨some email, some utype, pwd⟩) =
        (([("error", RVal.s "User with this email already exists")], 409), s)) ∧
    ((UserUtils.get_user_by_email s email).isSome = false →
      (UserController.create_user s (some ⟨some email, some utype, pwd⟩)).1.2 = 201 ∧
      UserController.create_user
          (UserController.create_user s (some ⟨some email, some utype, pwd⟩)).2
          (some ⟨some email, some utype, pwd⟩) =
        (([("error", RVal.s "User with this email already exists")], 409),
         (UserController.create_user s (some ⟨some email, some utype, pwd⟩)).2)) := by
  have hskip : (pyTruthy pwd &&
      !(PasswordUtils.validate_password_strength (pwd.getD "")).1) = false := by
    cases hpy : pyTruthy pwd
    · simp [hpy]
    · simp [hpy, hpw hpy]
  constructor
  · intro hex
    exact create_user_exists_conflict s email utype pwd hskip he ht hex
  · intro hex
    have hfind : UserUtils.get_user_by_email s email = none := by
      cases hcase : UserUtils.get_user_by_email s email with
      | none => rfl
      | some u => rw [hcase] at hex; simp at hex
    have hrun : UserController.create_user s (some ⟨some email, some utype, pwd⟩) =
        ((( [("message", RVal.s "User created successfully"),
            ("user_id", RVal.s (toString s.nextId)),
            ("email", RVal.s email),
            ("user_type", RVal.s utype)] ++
           (if pyTruthy pwd then [("has_password", RVal.b true)] else [])), 201),
         { docs := s.docs ++
            [(if pyTruthy pwd then
              [("_id", toString s.nextId), ("email", email), ("user_type", utype)] ++
                [("password_hash",
                  PasswordUtils.hash_password defaultSalt (pwd.getD ""))]
              else [("_id", toString s.nextId), ("email", email),
                    ("user_type", utype)])],
           nextId := s.nextId + 1 }) := by
      rw [UserController.create_user]
      simp only [hskip, he, ht, hfind, Bool.and_true, Bool.false_eq_true, if_false,
        Bool.not_false, Option.isSome_none, UserUtils.create_user]
      cases hpy : pyTruthy pwd <;> simp [UserUtils.create_user, hpy]
    refine ⟨by rw [hrun], ?_⟩
    rw [hrun]
    apply create_user_exists_conflict _ email utype pwd hskip he ht
    rw [UserUtils.get_user_by_email] at hfind ⊢
    simp only [List.find?_append, hfind, Option.none_or]
    have hdoc : ∀ d : Doc,
        getField (("_id", toString s.nextId) :: ("email", email) ::
          ("user_type", utype) :: d) "email" = some email :=
      fun d => getField_insert_email (toString s.nextId) email utype d
    cases hpy : pyTruthy pwd
    · simp only [hpy, if_false, Bool.false_eq_true]
      rw [List.find?_cons_of_pos]
      · rfl
      · show (getField _ "email" == some email) = true
        have := hdoc []
        simp_all
    · simp only [hpy, if_true]
      rw [List.find?_cons_of_pos]
      · rfl
      · show (getField _ "email" == some email) = true
        have := hdoc [("password_hash",
          PasswordUtils.hash_password defaultSalt (pwd.getD ""))]
        simp_all

/-- Witness for C6 amended at a concrete store: a second creation for an
email that exists yields the conflict response and leaves the store
unchanged. -/
theorem C6_create_account_unique_witness :
    UserController.create_user
        ⟨[[("_id", "0"), ("email", "a@b.com"), ("user_type", "USER")]], 1⟩
        (some ⟨some "a@b.com", some "USER", none⟩) =
      (([("error", RVal.s "User with this email already exists")], 409),
       ⟨[[("_id", "0"), ("email", "a@b.com"), ("user_type", "USER")]], 1⟩) :=
  (C6_create_account_unique
      ⟨[[("_id", "0"), ("email", "a@b.com"), ("user_type", "USER")]], 1⟩
      "a@b.com" "USER" none (by decide) (by decide) (by decide)).1 (by decide)

/-- Claim C10: a creation request whose password field is present but
equal to the empty string behaves exactly as if no password had been
supplied - the whole result (response, status and resulting store)
coincides with the no-password call, so the strength check is skipped
and the success response carries no has_password indicator. -/
theorem C10_empty_password_as_absent (s : Store) (email utype : String) :
    UserController.create_user s (some ⟨some email, some utype, some ""⟩) =
      UserController.create_user s (some ⟨some email, some utype, none⟩) ∧
    (((UserController.create_user s
        (some ⟨some email, some utype, some ""⟩)).1.1.map
      Prod.fst).contains "has_password") = false := by
  have hpy : pyTruthy (some "") = false := rfl
  constructor
  · rfl
  · rw [UserController.create_user]
    simp only [hpy, Bool.false_and, Bool.false_eq_true, if_false,
      UserUtils.create_user]
    split_ifs <;> simp
